import Mathlib

/-
Verification development for the medicure report summary service
(`src/app.py`).  The program is a small Flask web app: `POST /upload`
receives a PDF, extracts its text with PyMuPDF (fitz), falls back to the
OCR.space REST API when the directly extracted text is short, sends the
text to the Gemini API for summarization and returns a JSON object.

The embedding below is shallow.  External effects (the filesystem save,
the fitz extraction, the two remote HTTP calls) are modelled by oracle
values packaged in a `World`: each oracle enumerates exactly the outcomes
the Python code distinguishes (success data, the exception classes it
catches, the error shapes of the remote responses).  Python strings are
Lean `String`s; the Python string operations used by the code
(`strip`, `len`, `endswith`, `lower`, `in`) are re-implemented below on
the character list of the string so that every definition reduces in the
kernel.
-/

namespace MedicureApp

/-- Whitespace characters stripped by Python `str.strip()` (the ASCII
whitespace set; the code never produces the exotic Unicode spaces, so the
embedding restricts to ASCII). -/
def isPyWhitespace (c : Char) : Bool :=
  c = ' ' || c = '\t' || c = '\n' || c = '\r' || c = '\x0b' || c = '\x0c'

/-- Python `s.strip()`: drop leading and trailing whitespace. -/
def pyStrip (s : String) : String :=
  ⟨((s.data.dropWhile isPyWhitespace).reverse.dropWhile isPyWhitespace).reverse⟩

/-- Python `s.endswith(suffix)` (case-sensitive, code-point wise). -/
def pyEndsWith (s suffix : String) : Bool :=
  suffix.data.isSuffixOf s.data

/-- Python `s.startswith(p)` (code-point wise). -/
def pyStartsWith (s p : String) : Bool :=
  p.data.isPrefixOf s.data

/-- Python `s.lower()` (ASCII case folding, which covers the filenames
concerned here). -/
def pyLower (s : String) : String :=
  ⟨s.data.map Char.toLower⟩

/-- Helper for Python `pat in s`: contiguous-substring search on
character lists. -/
def containsAux : List Char → List Char → Bool
  | [], pat => pat.isPrefixOf []
  | c :: rest, pat => pat.isPrefixOf (c :: rest) || containsAux rest pat

/-- Python `pat in s`: `pat` occurs as a contiguous substring of `s`. -/
def strContains (s pat : String) : Bool :=
  containsAux s.data pat.data

/-- Python truthiness test `if not KEY` on a value from `os.getenv`:
true when the variable is absent (`None`) or set to the empty string. -/
def keyMissing : Option String → Bool
  | none => true
  | some s => s == ""

/-- The environment configuration read at startup (`app.py` lines 21-23):
`OCR_SPACE_API_KEY` and `GEMINI_API_KEY` from `os.getenv`. -/
structure Env where
  ocrSpaceApiKey : Option String
  geminiApiKey : Option String
deriving Repr, DecidableEq

/-- The outcomes of the OCR.space HTTP call that `ocr_with_ocrspace`
distinguishes (`app.py` lines 36-50): a JSON body with
`IsErroredOnProcessing` set (carrying `ErrorMessage[0]`), a body with
`ParsedResults` (a list of `ParsedText` fields), a body with neither,
a `requests.exceptions.RequestException`, or any other exception. -/
inductive OcrOutcome where
  | parsed (texts : List String)
  | processingError (msg : String)
  | noParsedResults
  | requestException (msg : String)
  | otherException (msg : String)
deriving Repr, DecidableEq

/-- The outcomes of the Gemini call in `summarize_with_ai`
(`app.py` lines 61-86): the model answers with `response.text`, or some
exception is raised (its `str(e)` rendering is the payload). -/
inductive GeminiOutcome where
  | success (text : String)
  | exn (msg : String)
deriving Repr, DecidableEq

/-- The outcome of `file.save(filepath)` (`app.py` line 106): success, or
an exception; `created` records whether the file appeared on disk before
the exception. -/
inductive SaveOutcome where
  | ok
  | exn (msg : String) (created : Bool)
deriving Repr, DecidableEq

/-- The outcome of the fitz extraction (`app.py` lines 108-110): the list
of per-page `get_text()` strings, or an exception (e.g. a corrupt PDF). -/
inductive ExtractOutcome where
  | ok (pages : List String)
  | exn (msg : String)
deriving Repr, DecidableEq

/-- All oracle inputs of one request: the environment plus the outcome of
each external interaction, fixed up front. -/
structure World where
  env : Env
  save : SaveOutcome
  extract : ExtractOutcome
  ocr : OcrOutcome
  gemini : GeminiOutcome
deriving Repr, DecidableEq

/-- The uploaded file as Flask presents it: `request.files['file']` with
its `filename` attribute. -/
structure UploadedFile where
  filename : String
deriving Repr, DecidableEq

/-- A `POST /upload` request: `request.files` either holds the `file`
field or not. -/
structure UploadRequest where
  files : Option UploadedFile
deriving Repr, DecidableEq

/-- A JSON object as produced by `jsonify({...})` in this program: every
value passed is a string, so an object is a key-value list of strings. -/
abbrev JsonObj := List (String × String)

/-- `jsonify({'error': msg})`. -/
def errJson (msg : String) : JsonObj := [("error", msg)]

/-- `ocr_with_ocrspace` (`app.py` lines 30-50).  Returns the joined
`ParsedText` strings on success and a string starting with
`"OCR.space Error:"` on every failure; never raises (every exception is
caught). -/
def ocr_with_ocrspace (env : Env) (o : OcrOutcome) : String :=
  if keyMissing env.ocrSpaceApiKey then
    "OCR.space Error: API key not found. Please create a .env file and add your OCR_SPACE_API_KEY."
  else
    match o with
    | .requestException e => "OCR.space Error: Network request failed. Details: " ++ e
    | .otherException e => "OCR.space Error: An unexpected error occurred. Details: " ++ e
    | .processingError m => "OCR.space Error: " ++ m
    | .parsed ts => String.join ts
    | .noParsedResults => "OCR.space Error: No text could be parsed."

/-- `summarize_with_ai` (`app.py` lines 53-86).  The prompt construction
only feeds the remote model, so the oracle carries the model reply
directly; on any exception the function returns a string starting with
`"Gemini Error:"`; never raises. -/
def summarize_with_ai (env : Env) (g : GeminiOutcome) (text : String) : String :=
  if keyMissing env.geminiApiKey then
    "Gemini Error: API key not found. Please add GEMINI_API_KEY to your .env file."
  else
    match g with
    | .success t => t
    | .exn e => "Gemini Error: An error occurred while generating the summary. Details: " ++ e

/-- `app.config['UPLOAD_FOLDER']` (`app.py` line 17). -/
def UPLOAD_FOLDER : String := "uploads"

/-- `os.path.join(folder, name)` for the relative paths this program
builds: the folder, a separator, the filename. -/
def pathJoin (a b : String) : String := a ++ "/" ++ b

/-- The observable result of one `upload_file` request: the JSON body,
whether the temporary file still exists on disk after the handler
returns, and which pipeline steps ran (fitz extraction, the OCR call,
the Gemini call). -/
structure UploadResult where
  resp : JsonObj
  fileOnDisk : Bool
  extractionRun : Bool
  ocrCalled : Bool
  geminiCalled : Bool
deriving Repr, DecidableEq

/-- `app.py` lines 118-125: the tail of the try block once `full_text`
holds its final value — the emptiness check, the Gemini call and the
marker check on the summary.  `ocrCalled` records whether the OCR branch
ran earlier; the file is on disk throughout. -/
def afterExtract (env : Env) (g : GeminiOutcome) (full_text : String) (ocrCalled : Bool) :
    UploadResult :=
  if pyStrip full_text == "" then
    ⟨errJson "Could not extract any text from this PDF.", true, true, ocrCalled, false⟩
  else
    let summary := summarize_with_ai env g full_text
    if strContains summary "Gemini Error:" then
      ⟨errJson summary, true, true, ocrCalled, true⟩
    else
      ⟨[("extracted_text", full_text), ("summary", summary)], true, true, ocrCalled, true⟩

/-- `app.py` lines 104-128: the try/except body of the PDF branch — save
the file, extract text with fitz, fall back to OCR when the stripped text
is shorter than 100 characters, then summarize; the generic `except`
turns a save or fitz exception into `{'error': str(e)}`.  The returned
`fileOnDisk` is the state before the `finally` clause. -/
def uploadTryBody (w : World) : UploadResult :=
  match w.save with
  | .exn e created => ⟨errJson e, created, false, false, false⟩
  | .ok =>
    match w.extract with
    | .exn e => ⟨errJson e, true, true, false, false⟩
    | .ok pages =>
      let full_text := String.join pages
      if (pyStrip full_text).length < 100 then
        let ocrText := ocr_with_ocrspace w.env w.ocr
        if strContains ocrText "OCR.space Error:" then
          ⟨errJson ocrText, true, true, true, false⟩
        else
          afterExtract w.env w.gemini ocrText true
      else
        afterExtract w.env w.gemini full_text false

/-- `upload_file` (`app.py` lines 93-133): the guard chain (missing file
part, empty filename, extension check), the try body, and the `finally`
clause `if filepath and os.path.exists(filepath): os.remove(filepath)`
modelled on the tracked file state. -/
def upload_file (w : World) (req : UploadRequest) : UploadResult :=
  match req.files with
  | none => ⟨errJson "No file part", false, false, false, false⟩
  | some file =>
    if file.filename == "" then
      ⟨errJson "No selected file", false, false, false, false⟩
    else if pyEndsWith file.filename ".pdf" then
      let filepath := pathJoin UPLOAD_FOLDER file.filename
      let r := uploadTryBody w
      { r with fileOnDisk := if !(filepath == "") && r.fileOnDisk then false else r.fileOnDisk }
    else
      ⟨errJson "Invalid file type. Please upload a PDF.", false, false, false, false⟩

/-- A response body of the failure shape `{"error": str}`. -/
def isErrorShape (j : JsonObj) : Prop := ∃ s, j = [("error", s)]

/-- A response body of the success shape
`{"extracted_text": str, "summary": str}`. -/
def isSuccessShape (j : JsonObj) : Prop :=
  ∃ t u, j = [("extracted_text", t), ("summary", u)]

/-! ### Helper lemmas -/

theorem isPrefixOf_append_right (p a e : List Char) (h : p.isPrefixOf a = true) :
    p.isPrefixOf (a ++ e) = true := by
  rw [List.isPrefixOf_iff_prefix] at h ⊢
  exact h.trans (List.prefix_append a e)

theorem strContains_of_pyStartsWith (s pat : String) (h : pyStartsWith s pat = true) :
    strContains s pat = true := by
  unfold pyStartsWith at h
  unfold strContains
  cases hd : s.data with
  | nil => rw [hd] at h; simp [containsAux, h]
  | cons c rest => rw [hd] at h; simp [containsAux, h]

theorem pyStartsWith_append (a e pat : String) (h : pyStartsWith a pat = true) :
    pyStartsWith (a ++ e) pat = true := by
  unfold pyStartsWith at h ⊢
  rw [String.data_append]
  exact isPrefixOf_append_right _ _ _ h

theorem strContains_append_left (a e pat : String) (h : pyStartsWith a pat = true) :
    strContains (a ++ e) pat = true :=
  strContains_of_pyStartsWith _ _ (pyStartsWith_append a e pat h)

theorem pathJoin_uploads_ne_empty (b : String) :
    (pathJoin UPLOAD_FOLDER b == "") = false := by
  rw [beq_eq_false_iff_ne]
  intro h
  have hd : (pathJoin UPLOAD_FOLDER b).data = "".data := congrArg String.data h
  unfold pathJoin UPLOAD_FOLDER at hd
  rw [String.data_append, String.data_append] at hd
  simp at hd

theorem update_resp (r : UploadResult) (x : Bool) :
    ({ r with fileOnDisk := x } : UploadResult).resp = r.resp := rfl

theorem update_ocrCalled (r : UploadResult) (x : Bool) :
    ({ r with fileOnDisk := x } : UploadResult).ocrCalled = r.ocrCalled := rfl

theorem update_geminiCalled (r : UploadResult) (x : Bool) :
    ({ r with fileOnDisk := x } : UploadResult).geminiCalled = r.geminiCalled := rfl

theorem afterExtract_ocrCalled (env : Env) (g : GeminiOutcome) (t : String) (b : Bool) :
    (afterExtract env g t b).ocrCalled = b := by
  unfold afterExtract
  split
  · rfl
  · dsimp only
    split <;> rfl

theorem upload_file_pdf_branch (w : World) (req : UploadRequest) (f : UploadedFile)
    (hf : req.files = some f) (hne : (f.filename == "") = false)
    (hpdf : pyEndsWith f.filename ".pdf" = true) :
    upload_file w req = { uploadTryBody w with fileOnDisk := false } := by
  unfold upload_file
  rw [hf]
  simp only [hne, hpdf, Bool.false_eq_true, if_false, if_true]
  rw [pathJoin_uploads_ne_empty f.filename]
  cases h : (uploadTryBody w).fileOnDisk <;> simp [h]

/-- Claim C1: in the PDF-processing branch (file field present, non-empty
filename, filename ending in `.pdf`), the temporary upload file does not
exist on disk after the handler returns, for every combination of oracle
outcomes (success, OCR failure, empty-text failure, summarization
failure, save or extraction exception). -/
theorem upload_file_temp_file_removed (w : World) (req : UploadRequest) (f : UploadedFile)
    (hf : req.files = some f) (hne : (f.filename == "") = false)
    (hpdf : pyEndsWith f.filename ".pdf" = true) :
    (upload_file w req).fileOnDisk = false := by
  rw [upload_file_pdf_branch w req f hf hne hpdf]

/-- Claim C1 witness: a concrete PDF request on a concrete world. -/
theorem upload_file_temp_file_removed_witness :
    (upload_file ⟨⟨none, none⟩, .ok, .ok ["page text"], .noParsedResults, .exn "boom"⟩
      ⟨some ⟨"report.pdf"⟩⟩).fileOnDisk = false :=
  upload_file_temp_file_removed _ _ ⟨"report.pdf"⟩ rfl (by decide) (by decide)

theorem uploadTryBody_ok (w : World) (pages : List String)
    (hsave : w.save = .ok) (hext : w.extract = .ok pages) :
    uploadTryBody w =
      if (pyStrip (String.join pages)).length < 100 then
        if strContains (ocr_with_ocrspace w.env w.ocr) "OCR.space Error:" then
          ⟨errJson (ocr_with_ocrspace w.env w.ocr), true, true, true, false⟩
        else afterExtract w.env w.gemini (ocr_with_ocrspace w.env w.ocr) true
      else afterExtract w.env w.gemini (String.join pages) false := by
  unfold uploadTryBody
  rw [hsave, hext]

/-- Claim C2: for an uploaded PDF whose save and local extraction
succeed, the OCR fallback is invoked if and only if the stripped
concatenated per-page text is strictly shorter than 100 characters. -/
theorem ocr_call_iff_short_text (w : World) (req : UploadRequest) (f : UploadedFile)
    (pages : List String)
    (hf : req.files = some f) (hne : (f.filename == "") = false)
    (hpdf : pyEndsWith f.filename ".pdf" = true)
    (hsave : w.save = SaveOutcome.ok) (hext : w.extract = ExtractOutcome.ok pages) :
    (upload_file w req).ocrCalled = true ↔ (pyStrip (String.join pages)).length < 100 := by
  rw [upload_file_pdf_branch w req f hf hne hpdf, update_ocrCalled,
    uploadTryBody_ok w pages hsave hext]
  by_cases h : (pyStrip (String.join pages)).length < 100
  · rw [if_pos h]
    refine iff_of_true ?_ h
    split
    · rfl
    · rw [afterExtract_ocrCalled]
  · rw [if_neg h, afterExtract_ocrCalled]
    exact iff_of_false (by decide) h

/-- Claim C2 witness: a two-character PDF triggers the OCR branch, a
120-character PDF does not. -/
theorem ocr_call_iff_short_text_witness :
    ((upload_file ⟨⟨some "k", some "g"⟩, .ok, .ok ["hi"], .parsed ["text"], .success "s"⟩
        ⟨some ⟨"a.pdf"⟩⟩).ocrCalled = true ↔
      (pyStrip (String.join ["hi"])).length < 100) ∧
    ((upload_file
        ⟨⟨some "k", some "g"⟩, .ok,
          .ok ["abcdefghijabcdefghijabcdefghijabcdefghijabcdefghijabcdefghijabcdefghijabcdefghijabcdefghijabcdefghijabcdefghijabcdefghij"],
          .parsed ["text"], .success "s"⟩
        ⟨some ⟨"a.pdf"⟩⟩).ocrCalled = true ↔
      (pyStrip (String.join ["abcdefghijabcdefghijabcdefghijabcdefghijabcdefghijabcdefghijabcdefghijabcdefghijabcdefghijabcdefghijabcdefghijabcdefghij"])).length < 100) :=
  ⟨ocr_call_iff_short_text _ _ ⟨"a.pdf"⟩ ["hi"] rfl (by decide) (by decide) rfl rfl,
    ocr_call_iff_short_text _ _ ⟨"a.pdf"⟩ _ rfl (by decide) (by decide) rfl rfl⟩

theorem afterExtract_shape (env : Env) (g : GeminiOutcome) (t : String) (b : Bool) :
    isErrorShape (afterExtract env g t b).resp ∨ isSuccessShape (afterExtract env g t b).resp := by
  unfold afterExtract
  split
  · exact Or.inl ⟨_, rfl⟩
  · dsimp only
    split
    · exact Or.inl ⟨_, rfl⟩
    · exact Or.inr ⟨_, _, rfl⟩

theorem uploadTryBody_shape (w : World) :
    isErrorShape (uploadTryBody w).resp ∨ isSuccessShape (uploadTryBody w).resp := by
  unfold uploadTryBody
  cases hs : w.save with
  | exn e c => exact Or.inl ⟨_, rfl⟩
  | ok =>
    cases he : w.extract with
    | exn e => exact Or.inl ⟨_, rfl⟩
    | ok pages =>
      dsimp only
      split
      · split
        · exact Or.inl ⟨_, rfl⟩
        · exact afterExtract_shape _ _ _ _
      · exact afterExtract_shape _ _ _ _

/-- Claim C3: every response body of `upload_file` has one of exactly two
shapes: `{"error": str}` or `{"extracted_text": str, "summary": str}`. -/
theorem upload_response_shape (w : World) (req : UploadRequest) :
    isErrorShape (upload_file w req).resp ∨ isSuccessShape (upload_file w req).resp := by
  unfold upload_file
  cases hr : req.files with
  | none => exact Or.inl ⟨_, rfl⟩
  | some f =>
    dsimp only
    split
    · exact Or.inl ⟨_, rfl⟩
    · split
      · exact uploadTryBody_shape w
      · exact Or.inl ⟨_, rfl⟩

theorem afterExtract_error_taxonomy (env : Env) (g : GeminiOutcome) (t : String) (b : Bool)
    (s : String) (h : (afterExtract env g t b).resp = errJson s) :
    s = "Could not extract any text from this PDF." ∨ strContains s "Gemini Error:" = true := by
  unfold afterExtract at h
  split at h
  · left
    have hs : "Could not extract any text from this PDF." = s := by simpa [errJson] using h
    exact hs.symm
  · dsimp only at h
    split at h
    next hc =>
      right
      have hs : summarize_with_ai env g t = s := by simpa [errJson] using h
      rwa [hs] at hc
    next hc =>
      exact absurd h (by simp [errJson])

theorem uploadTryBody_error_taxonomy (w : World) (s : String)
    (h : (uploadTryBody w).resp = errJson s) :
    strContains s "OCR.space Error:" = true ∨ strContains s "Gemini Error:" = true ∨
      s = "Could not extract any text from this PDF." ∨
      (∃ c, w.save = SaveOutcome.exn s c) ∨ w.extract = ExtractOutcome.exn s := by
  unfold uploadTryBody at h
  cases hs : w.save with
  | exn e c =>
    rw [hs] at h
    dsimp only at h
    have he : e = s := by simpa [errJson] using h
    exact Or.inr (Or.inr (Or.inr (Or.inl ⟨c, by rw [he]⟩)))
  | ok =>
    rw [hs] at h
    cases hx : w.extract with
    | exn e =>
      rw [hx] at h
      dsimp only at h
      have he : e = s := by simpa [errJson] using h
      exact Or.inr (Or.inr (Or.inr (Or.inr (by rw [he]))))
    | ok pages =>
      rw [hx] at h
      dsimp only at h
      split at h
      · split at h
        next hc =>
          have hv : ocr_with_ocrspace w.env w.ocr = s := by simpa [errJson] using h
          exact Or.inl (hv ▸ hc)
        next hc =>
          rcases afterExtract_error_taxonomy _ _ _ _ _ h with h1 | h2
          · exact Or.inr (Or.inr (Or.inl h1))
          · exact Or.inr (Or.inl h2)
      · rcases afterExtract_error_taxonomy _ _ _ _ _ h with h1 | h2
        · exact Or.inr (Or.inr (Or.inl h1))
        · exact Or.inr (Or.inl h2)

/-- Claim C4 counterexample: the request with no file part fails with
`{"error": "No file part"}`, and that error string carries neither the
`"OCR.space Error:"` nor the `"Gemini Error:"` marker — so not every
failure is surfaced as a marker-carrying string. -/
theorem upload_error_marker_counterexample :
    (upload_file ⟨⟨none, none⟩, .ok, .ok [], .noParsedResults, .exn "e"⟩ ⟨none⟩).resp =
        errJson "No file part" ∧
      strContains "No file part" "OCR.space Error:" = false ∧
      strContains "No file part" "Gemini Error:" = false := by
  decide

/-- Claim C4 (amended): every failing request returns `{"error": str}`
where the string either carries one of the markers `"OCR.space Error:"`
or `"Gemini Error:"` (failures of the OCR step or the summarization
step), or is one of the fixed validation and no-text messages, or is the
rendering of the exception raised by the save or extraction step. -/
theorem upload_error_string_taxonomy (w : World) (req : UploadRequest) (s : String)
    (h : (upload_file w req).resp = errJson s) :
    strContains s "OCR.space Error:" = true ∨ strContains s "Gemini Error:" = true ∨
      s = "No file part" ∨ s = "No selected file" ∨
      s = "Invalid file type. Please upload a PDF." ∨
      s = "Could not extract any text from this PDF." ∨
      (∃ c, w.save = SaveOutcome.exn s c) ∨ w.extract = ExtractOutcome.exn s := by
  unfold upload_file at h
  cases hr : req.files with
  | none =>
    rw [hr] at h
    dsimp only at h
    have hs : "No file part" = s := by simpa [errJson] using h
    exact Or.inr (Or.inr (Or.inl hs.symm))
  | some f =>
    rw [hr] at h
    dsimp only at h
    split at h
    · have hs : "No selected file" = s := by simpa [errJson] using h
      exact Or.inr (Or.inr (Or.inr (Or.inl hs.symm)))
    · split at h
      · dsimp only at h
        rcases uploadTryBody_error_taxonomy w s h with h1 | h2 | h3 | h4 | h5
        · exact Or.inl h1
        · exact Or.inr (Or.inl h2)
        · exact Or.inr (Or.inr (Or.inr (Or.inr (Or.inr (Or.inl h3)))))
        · exact Or.inr (Or.inr (Or.inr (Or.inr (Or.inr (Or.inr (Or.inl h4))))))
        · exact Or.inr (Or.inr (Or.inr (Or.inr (Or.inr (Or.inr (Or.inr h5))))))
      · have hs : "Invalid file type. Please upload a PDF." = s := by simpa [errJson] using h
        exact Or.inr (Or.inr (Or.inr (Or.inr (Or.inl hs.symm))))

/-- Claim C4 (amended) witness: the taxonomy applied to the concrete
no-file-part failure. -/
theorem upload_error_string_taxonomy_witness :
    strContains "No file part" "OCR.space Error:" = true ∨
      strContains "No file part" "Gemini Error:" = true ∨
      "No file part" = "No file part" ∨ "No file part" = "No selected file" ∨
      "No file part" = "Invalid file type. Please upload a PDF." ∨
      "No file part" = "Could not extract any text from this PDF." ∨
      (∃ c, (⟨⟨none, none⟩, .ok, .ok [], .noParsedResults, .exn "e"⟩ : World).save =
        SaveOutcome.exn "No file part" c) ∨
      (⟨⟨none, none⟩, .ok, .ok [], .noParsedResults, .exn "e"⟩ : World).extract =
        ExtractOutcome.exn "No file part" :=
  upload_error_string_taxonomy ⟨⟨none, none⟩, .ok, .ok [], .noParsedResults, .exn "e"⟩
    ⟨none⟩ "No file part" (by decide)

/-- Claim C5: a missing `file` field yields `{"error": "No file part"}`;
an empty filename yields the JSON error `{"error": "No selected file"}`;
a filename not ending in `.pdf` yields
`{"error": "Invalid file type. Please upload a PDF."}`; in all three
cases no save, extraction, OCR or summarization step runs. -/
theorem upload_rejects_invalid_requests (w : World) (req : UploadRequest) :
    (req.files = none →
      upload_file w req = ⟨errJson "No file part", false, false, false, false⟩) ∧
    (∀ f, req.files = some f → (f.filename == "") = true →
      upload_file w req = ⟨errJson "No selected file", false, false, false, false⟩) ∧
    (∀ f, req.files = some f → (f.filename == "") = false →
      pyEndsWith f.filename ".pdf" = false →
      upload_file w req =
        ⟨errJson "Invalid file type. Please upload a PDF.", false, false, false, false⟩) := by
  refine ⟨fun h => ?_, fun f hf he => ?_, fun f hf he hp => ?_⟩
  · unfold upload_file
    rw [h]
  · unfold upload_file
    rw [hf]
    simp [he]
  · unfold upload_file
    rw [hf]
    simp [he, hp]

/-- Claim C5 witness: the three rejections at concrete requests. -/
theorem upload_rejects_invalid_requests_witness :
    (upload_file ⟨⟨none, none⟩, .ok, .ok [], .noParsedResults, .exn "e"⟩ ⟨none⟩ =
      ⟨errJson "No file part", false, false, false, false⟩) ∧
    (upload_file ⟨⟨none, none⟩, .ok, .ok [], .noParsedResults, .exn "e"⟩ ⟨some ⟨""⟩⟩ =
      ⟨errJson "No selected file", false, false, false, false⟩) ∧
    (upload_file ⟨⟨none, none⟩, .ok, .ok [], .noParsedResults, .exn "e"⟩ ⟨some ⟨"notes.txt"⟩⟩ =
      ⟨errJson "Invalid file type. Please upload a PDF.", false, false, false, false⟩) :=
  ⟨(upload_rejects_invalid_requests _ ⟨none⟩).1 rfl,
    (upload_rejects_invalid_requests _ ⟨some ⟨""⟩⟩).2.1 ⟨""⟩ rfl (by decide),
    (upload_rejects_invalid_requests _ ⟨some ⟨"notes.txt"⟩⟩).2.2 ⟨"notes.txt"⟩ rfl (by decide)
      (by decide)⟩

theorem uploadTryBody_geminiCalled (w : World)
    (h : (uploadTryBody w).geminiCalled = true) :
    ∃ full b, (afterExtract w.env w.gemini full b).geminiCalled = true ∧
      (uploadTryBody w).resp = (afterExtract w.env w.gemini full b).resp := by
  unfold uploadTryBody at h ⊢
  cases hs : w.save with
  | exn e c => rw [hs] at h; simp at h
  | ok =>
    rw [hs] at h
    dsimp only at h ⊢
    cases hx : w.extract with
    | exn e => rw [hx] at h; simp at h
    | ok pages =>
      rw [hx] at h
      dsimp only at h ⊢
      by_cases h1 : (pyStrip (String.join pages)).length < 100
      · rw [if_pos h1] at h ⊢
        by_cases h2 : strContains (ocr_with_ocrspace w.env w.ocr) "OCR.space Error:" = true
        · rw [if_pos h2] at h; simp at h
        · rw [if_neg h2] at h ⊢
          exact ⟨_, _, h, rfl⟩
      · rw [if_neg h1] at h ⊢
        exact ⟨_, _, h, rfl⟩

theorem upload_geminiCalled_resp (w : World) (req : UploadRequest)
    (h : (upload_file w req).geminiCalled = true) :
    ∃ full b, (afterExtract w.env w.gemini full b).geminiCalled = true ∧
      (upload_file w req).resp = (afterExtract w.env w.gemini full b).resp := by
  have h2 := h
  unfold upload_file at h2
  cases hr : req.files with
  | none => rw [hr] at h2; simp at h2
  | some f =>
    rw [hr] at h2
    dsimp only at h2
    split at h2
    next he => simp at h2
    next he =>
      split at h2
      next hp =>
        have he2 : (f.filename == "") = false := by simpa using he
        rw [upload_file_pdf_branch w req f hr he2 hp] at h ⊢
        rw [update_geminiCalled] at h
        rw [update_resp]
        exact uploadTryBody_geminiCalled w h
      next hp => simp at h2

theorem afterExtract_gemini_missing (env : Env) (g : GeminiOutcome) (t : String) (b : Bool)
    (hkey : keyMissing env.geminiApiKey = true)
    (h : (afterExtract env g t b).geminiCalled = true) :
    (afterExtract env g t b).resp =
      errJson "Gemini Error: API key not found. Please add GEMINI_API_KEY to your .env file." := by
  unfold afterExtract at h ⊢
  by_cases h1 : (pyStrip t == "") = true
  · rw [if_pos h1] at h; simp at h
  · rw [if_neg h1] at h ⊢
    dsimp only at h ⊢
    have hsum : summarize_with_ai env g t =
        "Gemini Error: API key not found. Please add GEMINI_API_KEY to your .env file." := by
      unfold summarize_with_ai
      rw [if_pos hkey]
    rw [hsum]
    have hc : strContains
        "Gemini Error: API key not found. Please add GEMINI_API_KEY to your .env file."
        "Gemini Error:" = true := by decide
    rw [if_pos hc]

/-- Claim C6: when `GEMINI_API_KEY` is unset (or empty),
`summarize_with_ai` returns a string containing `"Gemini Error:"`
without raising, and any upload request that reaches the summarization
step answers with that string under the `"error"` key. -/
theorem gemini_key_missing_behavior (w : World) (req : UploadRequest)
    (g : GeminiOutcome) (t : String)
    (hkey : keyMissing w.env.geminiApiKey = true) :
    strContains (summarize_with_ai w.env g t) "Gemini Error:" = true ∧
    ((upload_file w req).geminiCalled = true →
      (upload_file w req).resp =
        errJson "Gemini Error: API key not found. Please add GEMINI_API_KEY to your .env file.") := by
  constructor
  · unfold summarize_with_ai
    rw [if_pos hkey]
    decide
  · intro h
    obtain ⟨full, b, hg, hresp⟩ := upload_geminiCalled_resp w req h
    rw [hresp]
    exact afterExtract_gemini_missing w.env w.gemini full b hkey hg

/-- Claim C6 witness: a concrete world with no Gemini key whose request
reaches the summarization step. -/
theorem gemini_key_missing_behavior_witness :
    strContains
        (summarize_with_ai ⟨some "k", none⟩ (.success "sum") "report body")
        "Gemini Error:" = true ∧
      (upload_file
          ⟨⟨some "k", none⟩, .ok,
            .ok ["abcdefghijabcdefghijabcdefghijabcdefghijabcdefghijabcdefghijabcdefghijabcdefghijabcdefghijabcdefghijabcdefghijabcdefghij"],
            .parsed ["x"], .success "sum"⟩
          ⟨some ⟨"a.pdf"⟩⟩).resp =
        errJson "Gemini Error: API key not found. Please add GEMINI_API_KEY to your .env file." :=
  ⟨(gemini_key_missing_behavior
      ⟨⟨some "k", none⟩, .ok,
        .ok ["abcdefghijabcdefghijabcdefghijabcdefghijabcdefghijabcdefghijabcdefghijabcdefghijabcdefghijabcdefghijabcdefghijabcdefghij"],
        .parsed ["x"], .success "sum"⟩
      ⟨some ⟨"a.pdf"⟩⟩ (.success "sum") "report body" (by decide)).1,
    (gemini_key_missing_behavior
      ⟨⟨some "k", none⟩, .ok,
        .ok ["abcdefghijabcdefghijabcdefghijabcdefghijabcdefghijabcdefghijabcdefghijabcdefghijabcdefghijabcdefghijabcdefghijabcdefghij"],
        .parsed ["x"], .success "sum"⟩
      ⟨some ⟨"a.pdf"⟩⟩ (.success "sum") "report body" (by decide)).2 (by decide)⟩

/-- Claim C7: `ocr_with_ocrspace` and `summarize_with_ai` never raise
(they are total functions of their oracle: every exception path of the
source is caught and converted to a return value); every failure path
returns a string prefixed with `"OCR.space Error:"` respectively
`"Gemini Error:"`, and on a success outcome with a configured key each
returns the remote text unchanged. -/
theorem external_calls_marker_discipline (env : Env) (o : OcrOutcome) (g : GeminiOutcome)
    (t : String) :
    (pyStartsWith (ocr_with_ocrspace env o) "OCR.space Error:" = true ∨
      (keyMissing env.ocrSpaceApiKey = false ∧
        ∃ ts, o = OcrOutcome.parsed ts ∧ ocr_with_ocrspace env o = String.join ts)) ∧
    (pyStartsWith (summarize_with_ai env g t) "Gemini Error:" = true ∨
      (keyMissing env.geminiApiKey = false ∧
        ∃ u, g = GeminiOutcome.success u ∧ summarize_with_ai env g t = u)) := by
  constructor
  · unfold ocr_with_ocrspace
    by_cases hk : keyMissing env.ocrSpaceApiKey = true
    · rw [if_pos hk]
      left
      decide
    · rw [if_neg hk]
      have hk2 : keyMissing env.ocrSpaceApiKey = false := by simpa using hk
      cases o with
      | parsed ts => exact Or.inr ⟨hk2, ts, rfl, rfl⟩
      | processingError m => exact Or.inl (pyStartsWith_append "OCR.space Error: " m _ (by decide))
      | noParsedResults => left; decide
      | requestException e =>
        exact Or.inl
          (pyStartsWith_append "OCR.space Error: Network request failed. Details: " e _ (by decide))
      | otherException e =>
        exact Or.inl
          (pyStartsWith_append "OCR.space Error: An unexpected error occurred. Details: " e _
            (by decide))
  · unfold summarize_with_ai
    by_cases hk : keyMissing env.geminiApiKey = true
    · rw [if_pos hk]
      left
      decide
    · rw [if_neg hk]
      have hk2 : keyMissing env.geminiApiKey = false := by simpa using hk
      cases g with
      | success u => exact Or.inr ⟨hk2, u, rfl, rfl⟩
      | exn e =>
        exact Or.inl
          (pyStartsWith_append
            "Gemini Error: An error occurred while generating the summary. Details: " e _
            (by decide))

/-- Claim C8: the extension check is case-sensitive — a non-empty
filename whose lower-casing ends in `.pdf` but which does not itself end
in `.pdf` (an uppercase or mixed-case PDF extension, e.g. `report.PDF`)
is rejected with the invalid-file-type error, and no pipeline step runs. -/
theorem pdf_extension_check_case_sensitive (w : World) (req : UploadRequest)
    (f : UploadedFile)
    (hf : req.files = some f) (hne : (f.filename == "") = false)
    (hlower : pyEndsWith (pyLower f.filename) ".pdf" = true)
    (hnot : pyEndsWith f.filename ".pdf" = false) :
    upload_file w req =
      ⟨errJson "Invalid file type. Please upload a PDF.", false, false, false, false⟩ := by
  unfold upload_file
  rw [hf]
  simp [hne, hnot]

/-- Claim C8 witness: `report.PDF` is rejected. -/
theorem pdf_extension_check_case_sensitive_witness :
    upload_file ⟨⟨some "k", some "g"⟩, .ok, .ok ["text"], .parsed ["t"], .success "s"⟩
        ⟨some ⟨"report.PDF"⟩⟩ =
      ⟨errJson "Invalid file type. Please upload a PDF.", false, false, false, false⟩ :=
  pdf_extension_check_case_sensitive _ _ ⟨"report.PDF"⟩ rfl (by decide) (by decide) (by decide)

theorem afterExtract_gemini_marker (env : Env) (g : GeminiOutcome) (full t : String) (b : Bool)
    (hk : keyMissing env.geminiApiKey = false) (hg : g = GeminiOutcome.success t)
    (hc : strContains t "Gemini Error:" = true)
    (h : (afterExtract env g full b).geminiCalled = true) :
    (afterExtract env g full b).resp = errJson t := by
  subst hg
  unfold afterExtract at h ⊢
  by_cases h1 : (pyStrip full == "") = true
  · rw [if_pos h1] at h
    simp at h
  · rw [if_neg h1]
    dsimp only
    have hsum : summarize_with_ai env (GeminiOutcome.success t) full = t := by
      unfold summarize_with_ai
      rw [if_neg (by simp [hk])]
    rw [hsum, if_pos hc]

/-- Claim C9: the failure checks on the OCR text and on the summary are
substring tests, not prefix tests — a successfully parsed OCR text
containing `"OCR.space Error:"` anywhere is returned under the
`"error"` key instead of being processed, and a successfully generated
summary containing `"Gemini Error:"` anywhere is likewise returned under
the `"error"` key. -/
theorem marker_check_is_substring_test (w : World) (req : UploadRequest) (f : UploadedFile)
    (pages ts : List String) (t : String) :
    (req.files = some f → (f.filename == "") = false → pyEndsWith f.filename ".pdf" = true →
      w.save = SaveOutcome.ok → w.extract = ExtractOutcome.ok pages →
      (pyStrip (String.join pages)).length < 100 →
      keyMissing w.env.ocrSpaceApiKey = false → w.ocr = OcrOutcome.parsed ts →
      strContains (String.join ts) "OCR.space Error:" = true →
      upload_file w req = ⟨errJson (String.join ts), false, true, true, false⟩) ∧
    ((upload_file w req).geminiCalled = true → keyMissing w.env.geminiApiKey = false →
      w.gemini = GeminiOutcome.success t → strContains t "Gemini Error:" = true →
      (upload_file w req).resp = errJson t) := by
  constructor
  · intro hf hne hpdf hsave hext hshort hk hoc hcont
    have hocr : ocr_with_ocrspace w.env w.ocr = String.join ts := by
      rw [hoc]
      unfold ocr_with_ocrspace
      rw [if_neg (by simp [hk])]
    rw [upload_file_pdf_branch w req f hf hne hpdf, uploadTryBody_ok w pages hsave hext,
      if_pos hshort, hocr, if_pos hcont]
  · intro h hk hg hc
    obtain ⟨full, b, hgc, hresp⟩ := upload_geminiCalled_resp w req h
    rw [hresp]
    exact afterExtract_gemini_marker w.env w.gemini full t b hk hg hc hgc

/-- Claim C9 witness: an OCR text and a summary carrying the marker in
the middle of the string are both surfaced as errors. -/
theorem marker_check_is_substring_test_witness :
    (upload_file ⟨⟨some "k", some "g"⟩, .ok, .ok [], .parsed ["scan OCR.space Error: mid"],
        .success "s"⟩ ⟨some ⟨"a.pdf"⟩⟩ =
      ⟨errJson (String.join ["scan OCR.space Error: mid"]), false, true, true, false⟩) ∧
    ((upload_file
        ⟨⟨some "k", some "g"⟩, .ok,
          .ok ["abcdefghijabcdefghijabcdefghijabcdefghijabcdefghijabcdefghijabcdefghijabcdefghijabcdefghijabcdefghijabcdefghijabcdefghij"],
          .parsed ["x"], .success "note Gemini Error: inside"⟩
        ⟨some ⟨"a.pdf"⟩⟩).resp = errJson "note Gemini Error: inside") :=
  ⟨(marker_check_is_substring_test
      ⟨⟨some "k", some "g"⟩, .ok, .ok [], .parsed ["scan OCR.space Error: mid"], .success "s"⟩
      ⟨some ⟨"a.pdf"⟩⟩ ⟨"a.pdf"⟩ [] ["scan OCR.space Error: mid"] "").1
      rfl (by decide) (by decide) rfl rfl (by decide) (by decide) rfl (by decide),
    (marker_check_is_substring_test
      ⟨⟨some "k", some "g"⟩, .ok,
        .ok ["abcdefghijabcdefghijabcdefghijabcdefghijabcdefghijabcdefghijabcdefghijabcdefghijabcdefghijabcdefghijabcdefghijabcdefghij"],
        .parsed ["x"], .success "note Gemini Error: inside"⟩
      ⟨some ⟨"a.pdf"⟩⟩ ⟨"a.pdf"⟩ [] [] "note Gemini Error: inside").2
      (by decide) (by decide) rfl (by decide)⟩

/-- Claim C10: when the OCR fallback runs and returns a marker-free but
whitespace-only (or empty) string, the endpoint answers
`{"error": "Could not extract any text from this PDF."}` and the
summarization step never runs. -/
theorem ocr_whitespace_result_yields_no_text_error (w : World) (req : UploadRequest)
    (f : UploadedFile) (pages : List String)
    (hf : req.files = some f) (hne : (f.filename == "") = false)
    (hpdf : pyEndsWith f.filename ".pdf" = true)
    (hsave : w.save = SaveOutcome.ok) (hext : w.extract = ExtractOutcome.ok pages)
    (hshort : (pyStrip (String.join pages)).length < 100)
    (hnomark : strContains (ocr_with_ocrspace w.env w.ocr) "OCR.space Error:" = false)
    (hempty : pyStrip (ocr_with_ocrspace w.env w.ocr) = "") :
    upload_file w req =
      ⟨errJson "Could not extract any text from this PDF.", false, true, true, false⟩ := by
  rw [upload_file_pdf_branch w req f hf hne hpdf, uploadTryBody_ok w pages hsave hext,
    if_pos hshort, if_neg (by simp [hnomark])]
  unfold afterExtract
  rw [if_pos (by simp [hempty])]

/-- Claim C10 witness: an OCR result consisting of one whitespace-only
page. -/
theorem ocr_whitespace_result_yields_no_text_error_witness :
    upload_file ⟨⟨some "k", some "g"⟩, .ok, .ok [], .parsed [" \n"], .success "s"⟩
        ⟨some ⟨"a.pdf"⟩⟩ =
      ⟨errJson "Could not extract any text from this PDF.", false, true, true, false⟩ :=
  ocr_whitespace_result_yields_no_text_error
    ⟨⟨some "k", some "g"⟩, .ok, .ok [], .parsed [" \n"], .success "s"⟩
    ⟨some ⟨"a.pdf"⟩⟩ ⟨"a.pdf"⟩ [] rfl (by decide) (by decide) rfl rfl (by decide) (by decide)
    (by decide)

end MedicureApp
